import Mathlib

/-!
Shallow embedding of the Telegram classified-posts server (`src/main.py`,
the full variant; `src/server.py` is a stripped-down variant of the same
handler skeleton).  The relational store is modelled as in-memory lists of
records; every operation of `DatabaseService`, `PostLimitService`,
`ModerationBot.handle_moderation_callback`, `send_for_moderation`,
`send_report_for_moderation`, `broadcast_message` and
`handle_websocket_message` is translated function by function.

Modelling conventions:
* SQL rows are Lean structures; columns never read by the embedded logic
  (`moderation_message_id`, `updated_at`, `posts_today`,
  `last_post_count_reset`, the unused `posts` array and the serial id of
  `post_reports`) are elided.  `created_at` is kept as a logical clock
  (`DB.now`) because `get_posts` orders by it.
* The JSONB `creator` payload is consulted by the code only through
  `creator['telegram_id']`; it is modelled as the single field
  `creator_id` (the display-name fields feed only message text).
* User-facing message strings (Russian texts in the source) are
  represented by typed constructors / short ASCII tags: only their
  presence and kind are ever branched on.
* The in-process `user_cache` is write-through in every modelled
  operation (each cache write in the source accompanies the matching DB
  write), so reads are modelled against the store directly.
* `asyncpg` exceptions, network failures and the `try/except` fallbacks
  they trigger are not modelled: every modelled operation is the
  success path of the corresponding awaited call.  The one reachable
  in-handler exception, the `KeyError` on `result['action']` in the
  `add_to_favorites` / `hide_post` branches, is modelled explicitly.
* Python truthiness tests (`if not telegram_id`, `if filters.get(...)`)
  are reproduced by explicit `pyTruthy*` helpers.
-/

namespace Six

/-- Row of the `posts` table (src/main.py lines 98-114). -/
structure Post where
  id : Nat
  telegram_id : Int
  description : String
  category : String
  tags : List String
  likes : Int
  status : String
  is_edit : Bool
  original_post_id : Option Nat
  created_at : Nat
  creator_id : Int
  deriving DecidableEq

/-- Row of the `users` table (src/main.py lines 76-96). -/
structure User where
  telegram_id : Int
  username : String
  first_name : String
  last_name : String
  photo_url : String
  favorites : List Nat
  hidden : List Nat
  liked : List Nat
  reported_posts : List Nat
  is_banned : Bool
  ban_reason : Option String
  post_limit : Int
  language : String
  deriving DecidableEq

/-- Row of the `post_reports` table (src/main.py lines 116-124). -/
structure Report where
  post_id : Nat
  reporter_id : Int
  reason : Option String
  deriving DecidableEq

/-- The relational store.  `nextPostId` models the `SERIAL` id sequence of
`posts`; `now` is the logical clock stamping `created_at`. -/
structure DB where
  users : List User
  posts : List Post
  reports : List Report
  nextPostId : Nat
  now : Nat
  deriving DecidableEq

/-- A connected websocket viewer session.  The source keeps bare sockets in
`connected_clients`; `user` records which end user the session belongs to
(maintained by the connection layer, invisible to `broadcast_message`). -/
structure Session where
  sid : Nat
  user : Int
  deriving DecidableEq

/-- Python truthiness of an optional integer (`if not telegram_id`). -/
def pyTruthy : Option Int → Bool
  | none => false
  | some t => t != 0

/-- Python truthiness of an optional string (`if filters.get('category')`). -/
def pyTruthyS : Option String → Bool
  | none => false
  | some s => s != ""

/-- `UPDATE tbl SET ... WHERE c`: map `f` over exactly the rows satisfying `c`. -/
def updateWhere (c : α → Bool) (f : α → α) (l : List α) : List α :=
  l.map (fun a => if c a then f a else a)

/-- `SELECT * FROM posts WHERE id = $1` (first match, as for a key lookup). -/
def findPost (db : DB) (post_id : Nat) : Option Post :=
  db.posts.find? (fun p => p.id == post_id)

/-- `SELECT * FROM users WHERE telegram_id = $1`. -/
def findUser (db : DB) (telegram_id : Int) : Option User :=
  db.users.find? (fun u => u.telegram_id == telegram_id)

/-- `config.DAILY_POST_LIMIT` (src/main.py line 26). -/
def DAILY_POST_LIMIT : Int := 60

/-- `DatabaseService.get_user_published_posts_count` (lines 430-437):
`SELECT COUNT(*) FROM posts WHERE telegram_id = $1 AND status = 'approved'`. -/
def get_user_published_posts_count (db : DB) (telegram_id : Int) : Nat :=
  db.posts.countP (fun p => p.telegram_id == telegram_id && p.status == "approved")

/-- `DatabaseService.get_user_limit` (lines 421-428).  The stored value is
defaulted through Python `or`, so a missing user row or a stored 0 yields
`DAILY_POST_LIMIT`. -/
def get_user_limit (db : DB) (telegram_id : Int) : Int :=
  match findUser db telegram_id with
  | none => DAILY_POST_LIMIT
  | some u => if u.post_limit = 0 then DAILY_POST_LIMIT else u.post_limit

/-- `DatabaseService.is_user_banned` (lines 412-419); a missing row reads as
not banned (`result or False`). -/
def is_user_banned (db : DB) (telegram_id : Int) : Bool :=
  match findUser db telegram_id with
  | none => false
  | some u => u.is_banned

/-- `PostLimitService.check_user_limit` (lines 503-509):
`published_count < limit`, both recomputed per call. -/
def check_user_limit (db : DB) (telegram_id : Int) : Bool :=
  decide ((get_user_published_posts_count db telegram_id : Int) <
    get_user_limit db telegram_id)

/-- Argument record of `DatabaseService.create_post`. -/
structure PostData where
  telegram_id : Int
  description : String
  category : String
  tags : List String
  creator_id : Int
  is_edit : Bool
  original_post_id : Option Nat
  deriving DecidableEq

/-- `DatabaseService.create_post` (lines 192-205): inserts a row with
status `'pending'` and returns the freshly read row.  No validation of any
kind is performed here. -/
def create_post (db : DB) (pd : PostData) : DB × Post :=
  let p : Post :=
    { id := db.nextPostId
      telegram_id := pd.telegram_id
      description := pd.description
      category := pd.category
      tags := pd.tags
      likes := 0
      status := "pending"
      is_edit := pd.is_edit
      original_post_id := pd.original_post_id
      created_at := db.now
      creator_id := pd.creator_id }
  ({ db with posts := db.posts ++ [p], nextPostId := db.nextPostId + 1, now := db.now + 1 }, p)

/-- `DatabaseService.approve_post` (lines 270-295).  For an edit record
(`is_edit` and truthy `original_post_id`) the original post is overwritten
and forced to `'approved'` and the edit row is deleted; otherwise the post's
status is set to `'approved'` unconditionally. -/
def approve_post (db : DB) (post_id : Nat) : DB × Option Post :=
  match findPost db post_id with
  | none => (db, none)
  | some post =>
    match post.original_post_id with
    | some orig =>
      if post.is_edit && (orig != 0) then
        let merged := updateWhere (fun q => q.id == orig)
          (fun q => { q with description := post.description, category := post.category, tags := post.tags, status := "approved" }) db.posts
        let db2 : DB := { db with posts := merged.filter (fun q => !(q.id == post_id)) }
        (db2, findPost db2 orig)
      else
        let posts1 := updateWhere (fun q => q.id == post_id) (fun q => { q with status := "approved" }) db.posts
        let db1 : DB := { db with posts := posts1 }
        (db1, findPost db1 post_id)
    | none =>
      let posts1 := updateWhere (fun q => q.id == post_id) (fun q => { q with status := "approved" }) db.posts
      let db1 : DB := { db with posts := posts1 }
      (db1, findPost db1 post_id)

/-- `DatabaseService.reject_post` (lines 297-304): sets the status to
`'rejected'` but returns the row as fetched BEFORE the update. -/
def reject_post (db : DB) (post_id : Nat) : DB × Option Post :=
  match findPost db post_id with
  | none => (db, none)
  | some post =>
    let posts1 := updateWhere (fun q => q.id == post_id) (fun q => { q with status := "rejected" }) db.posts
    ({ db with posts := posts1 }, some post)

/-- `DatabaseService.delete_post` (lines 306-313): hard delete, owner-checked
when a truthy `telegram_id` is supplied; returns whether exactly one row was
deleted (`result.split()[-1] == '1'`). -/
def delete_post (db : DB) (post_id : Nat) (telegram_id : Option Int) : DB × Bool :=
  let c : Post → Bool :=
    match telegram_id with
    | some t =>
      if t != 0 then fun q => q.id == post_id && q.telegram_id == t
      else fun q => q.id == post_id
    | none => fun q => q.id == post_id
  ({ db with posts := db.posts.filter (fun q => !(c q)) }, db.posts.countP c == 1)

/-- `DatabaseService.like_post` (lines 315-347).  The membership flip on the
user's `liked` array is unconditional, but the counter update carries
`AND status = 'approved'`; the returned row is re-read after both updates. -/
def like_post (db : DB) (post_id : Nat) (telegram_id : Int) :
    DB × Option (Post × String) :=
  match findUser db telegram_id with
  | none => (db, none)
  | some user =>
    if user.liked.contains post_id then
      let users1 := updateWhere (fun u => u.telegram_id == telegram_id)
        (fun u => { u with liked := u.liked.filter (fun x => x != post_id) }) db.users
      let posts1 := updateWhere (fun p => p.id == post_id && p.status == "approved")
        (fun p => { p with likes := p.likes - 1 }) db.posts
      let db2 : DB := { db with users := users1, posts := posts1 }
      (db2, (findPost db2 post_id).map (fun p => (p, "removed")))
    else
      let users1 := updateWhere (fun u => u.telegram_id == telegram_id)
        (fun u => { u with liked := u.liked ++ [post_id] }) db.users
      let posts1 := updateWhere (fun p => p.id == post_id && p.status == "approved")
        (fun p => { p with likes := p.likes + 1 }) db.posts
      let db2 : DB := { db with users := users1, posts := posts1 }
      (db2, (findPost db2 post_id).map (fun p => (p, "added")))

/-- Result dictionary of `DatabaseService.report_post`. -/
structure ReportResult where
  success : Bool
  message : String
  deriving DecidableEq

/-- `DatabaseService.report_post` (lines 349-364): short-circuits to
`already_reported` on reported-set membership, otherwise inserts a report
row and appends to the reporter's `reported_posts`. -/
def report_post (db : DB) (post_id : Nat) (reporter_id : Int)
    (reason : Option String) : DB × ReportResult :=
  let proceed : DB × ReportResult :=
    let reports1 := db.reports ++ [{ post_id := post_id, reporter_id := reporter_id, reason := reason }]
    let users1 := updateWhere (fun u => u.telegram_id == reporter_id)
      (fun u => { u with reported_posts := u.reported_posts ++ [post_id] }) db.users
    ({ db with reports := reports1, users := users1 }, { success := true, message := "reported" })
  match findUser db reporter_id with
  | some u =>
    if u.reported_posts != [] && u.reported_posts.contains post_id then
      (db, { success := false, message := "already_reported" })
    else proceed
  | none => proceed

/-- `DatabaseService.get_post_by_id` (lines 366-370). -/
def get_post_by_id (db : DB) (post_id : Nat) : Option Post :=
  findPost db post_id

/-- Result dictionary of `add_to_favorites` / `hide_post`; `action` is
absent (`none`) exactly in the `user_not_found` case. -/
structure ToggleResult where
  success : Bool
  action : Option String
  message : String
  deriving DecidableEq

/-- `DatabaseService.add_to_favorites` (lines 372-390). -/
def add_to_favorites (db : DB) (post_id : Nat) (telegram_id : Int) :
    DB × ToggleResult :=
  match findUser db telegram_id with
  | none => (db, { success := false, action := none, message := "user_not_found" })
  | some user =>
    if user.favorites.contains post_id then
      let users1 := updateWhere (fun u => u.telegram_id == telegram_id)
        (fun u => { u with favorites := u.favorites.filter (fun x => x != post_id) }) db.users
      ({ db with users := users1 },
       { success := true, action := some "removed", message := "removed_from_favorites" })
    else
      let users1 := updateWhere (fun u => u.telegram_id == telegram_id)
        (fun u => { u with favorites := u.favorites ++ [post_id] }) db.users
      ({ db with users := users1 },
       { success := true, action := some "added", message := "added_to_favorites" })

/-- `DatabaseService.hide_post` (lines 392-410). -/
def hide_post (db : DB) (post_id : Nat) (telegram_id : Int) :
    DB × ToggleResult :=
  match findUser db telegram_id with
  | none => (db, { success := false, action := none, message := "user_not_found" })
  | some user =>
    if user.hidden.contains post_id then
      let users1 := updateWhere (fun u => u.telegram_id == telegram_id)
        (fun u => { u with hidden := u.hidden.filter (fun x => x != post_id) }) db.users
      ({ db with users := users1 },
       { success := true, action := some "shown", message := "post_shown" })
    else
      let users1 := updateWhere (fun u => u.telegram_id == telegram_id)
        (fun u => { u with hidden := u.hidden ++ [post_id] }) db.users
      ({ db with users := users1 },
       { success := true, action := some "hidden", message := "post_hidden" })

/-- Argument record of `DatabaseService.sync_user` (built by the handler's
`sync_user` branch from the incoming message). -/
structure UserData where
  telegram_id : Int
  username : String
  first_name : String
  last_name : String
  photo_url : String
  language : String
  deriving DecidableEq

/-- Return dictionary of `DatabaseService.sync_user` (lines 179-190).  It has
NO `post_limit` key: `used`/`total` live under `limits`. -/
structure SyncResult where
  telegram_id : Int
  used : Nat
  total : Int
  is_banned : Bool
  language : String
  favorites : List Nat
  hidden : List Nat
  liked : List Nat
  deriving DecidableEq

/-- `DatabaseService.sync_user` (lines 149-190): upserts the user row,
recounts the approved posts, and returns a normalized dictionary built from
the row as read (for an existing user: the row read BEFORE the profile
update, whose set/ban/limit columns the update does not touch). -/
def sync_user (db : DB) (ud : UserData) : DB × SyncResult :=
  let mk : DB → User → DB × SyncResult := fun db1 u =>
    (db1,
     { telegram_id := u.telegram_id
       used := get_user_published_posts_count db1 u.telegram_id
       total := u.post_limit
       is_banned := u.is_banned
       language := u.language
       favorites := u.favorites
       hidden := u.hidden
       liked := u.liked })
  match findUser db ud.telegram_id with
  | none =>
    let u : User :=
      { telegram_id := ud.telegram_id
        username := ud.username
        first_name := ud.first_name
        last_name := ud.last_name
        photo_url := ud.photo_url
        favorites := []
        hidden := []
        liked := []
        reported_posts := []
        is_banned := false
        ban_reason := none
        post_limit := DAILY_POST_LIMIT
        language := ud.language }
    mk { db with users := db.users ++ [u] } u
  | some u0 =>
    let users1 := updateWhere (fun u => u.telegram_id == ud.telegram_id)
      (fun u => { u with username := ud.username, first_name := ud.first_name, last_name := ud.last_name, photo_url := ud.photo_url }) db.users
    mk { db with users := users1 } u0

/-- The `filters` payload of a `get_posts` request: top-level `category`
plus the nested `filters` dict (its `sort` key and the remaining
tag-filter keys, each a list of values). -/
structure Filters where
  category : Option String := none
  sort : Option String := none
  tagFilters : List (String × List String) := []
  deriving DecidableEq

/-- A post row as returned by `get_posts`: the row joined with the
per-viewer `user_liked` / `user_favorited` / `user_hidden` flags. -/
structure AnnPost where
  post : Post
  user_liked : Bool
  user_favorited : Bool
  user_hidden : Bool
  deriving DecidableEq

/-- `chars1 <+: chars2`-at-some-position, Bool version used to model SQL
`LIKE '%pat%'`. -/
def charsHavePref (pat l : List Char) : Bool :=
  match pat, l with
  | [], _ => true
  | _ :: _, [] => false
  | a :: p, b :: t => a == b && charsHavePref p t

/-- Substring containment on char lists (SQL `LIKE '%pat%'`). -/
def charsContain (l pat : List Char) : Bool :=
  match l with
  | [] => pat.isEmpty
  | b :: t => charsHavePref pat (b :: t) || charsContain t pat

/-- Insertion into a list sorted by `le`. -/
def insertLe (le : α → α → Bool) (x : α) : List α → List α
  | [] => [x]
  | y :: ys => if le x y then x :: y :: ys else y :: insertLe le x ys

/-- Insertion sort by `le`; models the SQL `ORDER BY` clauses. -/
def sortLe (le : α → α → Bool) : List α → List α
  | [] => []
  | x :: xs => insertLe le x (sortLe le xs)

/-- `DatabaseService.get_posts` (lines 207-268): approved posts only,
hidden-posts exclusion (unless browsing the hidden tab), category /
search / tag filters, the `my` / `favorites` / `hidden` sort-filters, the
three orderings, `LIMIT/OFFSET` paging, and the per-viewer flag join. -/
def get_posts (db : DB) (f : Filters) (page limit : Nat) (search : String)
    (telegram_id : Option Int) : List AnnPost :=
  let hasViewer := pyTruthy telegram_id
  let tid := telegram_id.getD 0
  let uOpt := if hasViewer then findUser db tid else none
  let likedSet := match uOpt with | some u => u.liked | none => []
  let favSet := match uOpt with | some u => u.favorites | none => []
  let hiddenSet := match uOpt with | some u => u.hidden | none => []
  let r0 := db.posts.filter (fun p => p.status == "approved")
  let r1 := if (f.sort != some "hidden") && hasViewer then
      r0.filter (fun p => !(hiddenSet.contains p.id)) else r0
  let r2 := if pyTruthyS f.category then
      r1.filter (fun p => p.category == f.category.getD "") else r1
  let r3 := if search != "" then
      r2.filter (fun p => charsContain p.description.toLower.data search.toLower.data) else r2
  let r4 := r3.filter (fun p =>
      f.tagFilters.all (fun tf => tf.2.all (fun v => p.tags.contains (tf.1 ++ ":" ++ v))))
  let r5 :=
    match f.sort with
    | some "my" => if hasViewer then r4.filter (fun p => p.telegram_id == tid) else r4
    | some "favorites" => if hasViewer then r4.filter (fun p => favSet.contains p.id) else r4
    | some "hidden" => if hasViewer then r4.filter (fun p => hiddenSet.contains p.id) else r4
    | _ => r4
  let sortType := f.sort.getD "new"
  let r6 :=
    if sortType == "old" then
      sortLe (fun a b => decide (a.created_at ≤ b.created_at)) r5
    else if sortType == "rating" then
      sortLe (fun a b => decide (b.likes < a.likes) ||
        (a.likes == b.likes && decide (b.created_at ≤ a.created_at))) r5
    else
      sortLe (fun a b => decide (b.created_at ≤ a.created_at)) r5
  let r7 := (r6.drop ((page - 1) * limit)).take limit
  r7.map (fun p =>
    { post := p
      user_liked := likedSet.contains p.id
      user_favorited := favSet.contains p.id
      user_hidden := hiddenSet.contains p.id })

/-- An event pushed through `broadcast_message` to every connected client. -/
inductive BMsg where
  | postDeleted (post_id : Nat)
  | postLikeCountUpdated (post_id : Nat) (likes : Int)
  | userLimitsUpdated (telegram_id : Int) (used : Nat) (total : Int)
  | postApproved (post : Post) (is_edit : Bool) (original_post_id : Option Nat)
  | userBanned (telegram_id : Int)
  deriving DecidableEq

/-- `broadcast_message` (lines 844-865): serializes once and writes to EVERY
connected client.  The `filter_data`/`exclude_user` check in the loop body is
literally `pass` in the source, so the argument has no effect on delivery. -/
def broadcast_message (clients : List Session) (message : BMsg)
    (filter_data : Option Int := none) : List (Session × BMsg) :=
  let _ := filter_data
  clients.map (fun ws => (ws, message))

/-- A Telegram message sent by the server (`telegram_bot.send_message`):
moderation-queue postings and author notices, tagged by kind. -/
inductive Notif where
  | approvedNotice (chat_id : Int)
  | rejectedNotice (chat_id : Int) (is_edit : Bool)
  | deletedNotice (chat_id : Int)
  | moderationRequest (chat_id : Int) (post_id : Nat) (is_edit : Bool)
  | reportRequest (chat_id : Int) (post_id : Nat) (reporter_id : Int)
  deriving DecidableEq

/-- `config` fields consulted by the modelled operations. -/
structure Cfg where
  moderation_chat_id : Int := 0
  bot_active : Bool := false
  daily_post_limit : Int := DAILY_POST_LIMIT
  deriving DecidableEq

/-- `ModerationBot.send_for_moderation` (lines 768-805): with no moderation
chat configured the post is auto-approved (fail-open); otherwise a
moderation request with approve/reject buttons is posted to the chat. -/
def send_for_moderation (cfg : Cfg) (db : DB) (post : Post) : DB × List Notif :=
  if cfg.moderation_chat_id = 0 then
    ((approve_post db post.id).1, [])
  else
    (db, [Notif.moderationRequest cfg.moderation_chat_id post.id post.is_edit])

/-- `ModerationBot.send_report_for_moderation` (lines 807-842): posts a
report card with delete/keep buttons unless no moderation chat is set. -/
def send_report_for_moderation (cfg : Cfg) (post : Post) (reporter_id : Int) :
    List Notif :=
  if cfg.moderation_chat_id = 0 then []
  else [Notif.reportRequest cfg.moderation_chat_id post.id reporter_id]

/-- An edit of the moderator-chat message (`query.edit_message_text`),
tagged by the branch that produced it. -/
inductive SurfaceMsg where
  | notFound
  | approvedText (post_id : Nat)
  | actionFailed
  | rejectedText (is_edit : Bool)
  | deletedText
  | keepText
  deriving DecidableEq

/-- Output bundle of `handle_moderation_callback`. -/
structure CbResult where
  db : DB
  broadcasts : List (Session × BMsg)
  notifs : List Notif
  surface : List SurfaceMsg
  deriving DecidableEq

/-- `ModerationBot.handle_moderation_callback` (lines 687-766), for a
callback `action_post_id`.  Note there is no ticket/closed check anywhere:
each invocation re-applies the transition and re-sends the author notice. -/
def handle_moderation_callback (cfg : Cfg) (clients : List Session) (db : DB)
    (action : String) (post_id : Nat) : CbResult :=
  let _ := cfg
  match get_post_by_id db post_id with
  | none => { db := db, broadcasts := [], notifs := [], surface := [.notFound] }
  | some post =>
    if action = "approve" then
      let ar := approve_post db post_id
      match ar.2 with
      | some ap =>
        { db := ar.1
          broadcasts := broadcast_message clients (.postApproved ap post.is_edit post.original_post_id)
          notifs := [.approvedNotice post.creator_id]
          surface := [.approvedText ap.id] }
      | none => { db := ar.1, broadcasts := [], notifs := [], surface := [.actionFailed] }
    else if action = "reject" then
      let rr := reject_post db post_id
      { db := rr.1
        broadcasts := []
        notifs := [.rejectedNotice post.creator_id post.is_edit]
        surface := [.rejectedText post.is_edit] }
    else if action = "delete" then
      let dr := delete_post db post_id none
      if dr.2 then
        { db := dr.1
          broadcasts := broadcast_message clients (.postDeleted post_id)
          notifs := [.deletedNotice post.creator_id]
          surface := [.deletedText] }
      else { db := dr.1, broadcasts := [], notifs := [], surface := [] }
    else if action = "keep" then
      { db := db, broadcasts := [], notifs := [], surface := [.keepText] }
    else { db := db, broadcasts := [], notifs := [], surface := [] }

/-- `DatabaseService.set_user_limit` (lines 475-495): stores the new limit
and pushes a `user_limits_updated` event through `broadcast_message` (hence
to every connected client). -/
def set_user_limit (db : DB) (clients : List Session) (telegram_id : Int)
    (limit : Int) : DB × List (Session × BMsg) :=
  let users1 := updateWhere (fun u => u.telegram_id == telegram_id)
    (fun u => { u with post_limit := limit }) db.users
  let db1 : DB := { db with users := users1 }
  let published_count := get_user_published_posts_count db1 telegram_id
  (db1, broadcast_message clients (.userLimitsUpdated telegram_id published_count limit))

/-- An incoming websocket message (`data`); fields the source reads with
`data['k']` are modelled as present, fields read with `data.get` carry the
same defaults as the source. -/
structure InMsg where
  type : String
  telegram_id : Option Int := none
  username : String := ""
  first_name : String := ""
  last_name : String := ""
  photo_url : String := ""
  language : String := "ru"
  description : String := ""
  category : String := ""
  tags : List String := []
  creator_id : Int := 0
  is_edit : Bool := false
  original_post_id : Option Nat := none
  page : Nat := 1
  limit : Nat := 20
  search : String := ""
  append : Bool := false
  post_id : Nat := 0
  reason : Option String := none
  filters : Filters := {}
  deriving DecidableEq

/-- A reply sent back on the requesting websocket (`ws.send_str`), tagged
with the payload fields the source puts in it. -/
inductive OutMsg where
  | errorMsg (message : String)
  | actionBanned
  | userSynced (telegram_id : Int) (used : Nat) (total : Int) (is_banned : Bool)
      (language : String) (favorites hidden liked : List Nat)
  | limitExceeded
  | postCreated (is_edit : Bool)
  | postsMsg (posts : List AnnPost) (append : Bool)
  | postLiked (post : Post) (action : String)
  | userLimitsUpdated (telegram_id : Int) (used : Nat) (total : Int)
  | postForEdit (post : Post)
  | reportSent
  | favoritesUpdated (action : String) (message : String)
  | hideUpdated (action : String) (message : String)
  deriving DecidableEq

/-- Output bundle of one `handle_websocket_message` invocation: the store
afterwards, the replies to the requesting socket, the broadcast deliveries,
and the Telegram messages sent. -/
structure WsResult where
  db : DB
  replies : List OutMsg
  broadcasts : List (Session × BMsg)
  notifs : List Notif
  deriving DecidableEq

/-- The actions gated for banned users (line 880). -/
def bannedActions : List String := ["create_post", "like_post", "report_post"]

/-- The `if action == ...` chain inside the handler's `try` block
(lines 889-1079), for a truthy `telegram_id` `tid`. -/
def dispatch_action (cfg : Cfg) (clients : List Session) (db : DB)
    (m : InMsg) (tid : Int) : WsResult :=
  if m.type = "sync_user" then
    let sr := sync_user db
      { telegram_id := tid, username := m.username, first_name := m.first_name,
        last_name := m.last_name, photo_url := m.photo_url, language := m.language }
    let published_count := get_user_published_posts_count sr.1 tid
    -- the reply's `total` is `user_data_result.get('post_limit', DAILY_POST_LIMIT)`;
    -- the dict returned by `DatabaseService.sync_user` has no `post_limit`
    -- key, so the default is always taken (line 907)
    { db := sr.1
      replies := [.userSynced sr.2.telegram_id published_count cfg.daily_post_limit
        sr.2.is_banned sr.2.language sr.2.favorites sr.2.hidden sr.2.liked]
      broadcasts := []
      notifs := [] }
  else if m.type = "create_post" then
    if !(check_user_limit db tid) then
      { db := db, replies := [.limitExceeded], broadcasts := [], notifs := [] }
    else
      let cr := create_post db
        { telegram_id := tid, description := m.description, category := m.category,
          tags := m.tags, creator_id := m.creator_id, is_edit := m.is_edit,
          original_post_id := m.original_post_id }
      let md := if cfg.bot_active then send_for_moderation cfg cr.1 cr.2 else (cr.1, [])
      { db := md.1, replies := [.postCreated m.is_edit], broadcasts := [], notifs := md.2 }
  else if m.type = "get_posts" then
    let posts := get_posts db m.filters m.page m.limit m.search (some tid)
    { db := db, replies := [.postsMsg posts m.append], broadcasts := [], notifs := [] }
  else if m.type = "like_post" then
    let lr := like_post db m.post_id tid
    match lr.2 with
    | some pa =>
      { db := lr.1
        replies := [.postLiked pa.1 pa.2]
        broadcasts := broadcast_message clients (.postLikeCountUpdated m.post_id pa.1.likes) (some tid)
        notifs := [] }
    | none => { db := lr.1, replies := [], broadcasts := [], notifs := [] }
  else if m.type = "delete_post" then
    let dr := delete_post db m.post_id (some tid)
    if dr.2 then
      let published_count := get_user_published_posts_count dr.1 tid
      let limit := get_user_limit dr.1 tid
      { db := dr.1
        replies := [.userLimitsUpdated tid published_count limit]
        broadcasts := broadcast_message clients (.postDeleted m.post_id)
        notifs := [] }
    else { db := dr.1, replies := [], broadcasts := [], notifs := [] }
  else if m.type = "get_post_for_edit" then
    match get_post_by_id db m.post_id with
    | some p =>
      if p.telegram_id = tid then
        { db := db, replies := [.postForEdit p], broadcasts := [], notifs := [] }
      else
        { db := db, replies := [.errorMsg "post_not_found_or_not_owned"],
          broadcasts := [], notifs := [] }
    | none =>
      { db := db, replies := [.errorMsg "post_not_found_or_not_owned"],
        broadcasts := [], notifs := [] }
  else if m.type = "report_post" then
    match get_post_by_id db m.post_id with
    | some post =>
      let rr := report_post db m.post_id tid m.reason
      if rr.2.success then
        if rr.2.message = "already_reported" then
          -- dead branch in the source: `already_reported` comes with
          -- `success = False`, so it never reaches this reply
          { db := rr.1, replies := [.errorMsg "already_reported"],
            broadcasts := [], notifs := [] }
        else
          let notifs := if cfg.bot_active then send_report_for_moderation cfg post tid else []
          { db := rr.1, replies := [.reportSent], broadcasts := [], notifs := notifs }
      else { db := rr.1, replies := [], broadcasts := [], notifs := [] }
    | none => { db := db, replies := [], broadcasts := [], notifs := [] }
  else if m.type = "get_user_limits" then
    let published_count := get_user_published_posts_count db tid
    let limit := get_user_limit db tid
    { db := db, replies := [.userLimitsUpdated tid published_count limit],
      broadcasts := [], notifs := [] }
  else if m.type = "add_to_favorites" then
    let fr := add_to_favorites db m.post_id tid
    match fr.2.action with
    | none =>
      -- `result['action']` raises KeyError (user_not_found carries no
      -- `action` key); the outer except sends a generic error reply
      { db := fr.1, replies := [.errorMsg "internal_server_error"],
        broadcasts := [], notifs := [] }
    | some a =>
      let first := OutMsg.favoritesUpdated a fr.2.message
      if fr.2.success then
        let posts := get_posts fr.1 { sort := some "new" } 1 20 "" (some tid)
        { db := fr.1, replies := [first, .postsMsg posts false],
          broadcasts := [], notifs := [] }
      else { db := fr.1, replies := [first], broadcasts := [], notifs := [] }
  else if m.type = "hide_post" then
    let hr := hide_post db m.post_id tid
    match hr.2.action with
    | none =>
      { db := hr.1, replies := [.errorMsg "internal_server_error"],
        broadcasts := [], notifs := [] }
    | some a =>
      let first := OutMsg.hideUpdated a hr.2.message
      if hr.2.success then
        let posts := get_posts hr.1 { sort := some "new" } 1 20 "" (some tid)
        { db := hr.1, replies := [first, .postsMsg posts false],
          broadcasts := [], notifs := [] }
      else { db := hr.1, replies := [first], broadcasts := [], notifs := [] }
  else
    { db := db, replies := [], broadcasts := [], notifs := [] }

/-- `handle_websocket_message` (lines 867-1086): the `telegram_id`
truthiness check, the banned-action gate, then the action dispatch. -/
def handle_websocket_message (cfg : Cfg) (clients : List Session) (db : DB)
    (m : InMsg) : WsResult :=
  if pyTruthy m.telegram_id then
    let tid := m.telegram_id.getD 0
    if is_user_banned db tid && bannedActions.contains m.type then
      { db := db, replies := [.actionBanned], broadcasts := [], notifs := [] }
    else
      dispatch_action cfg clients db m tid
  else
    { db := db, replies := [.errorMsg "telegram_id is required"],
      broadcasts := [], notifs := [] }


/-! ### Well-formedness of the store (primary keys) and sample states -/

/-- `users.telegram_id` is a primary key. -/
def usersNodup (db : DB) : Prop := (db.users.map User.telegram_id).Nodup

/-- `posts.id` is a primary key. -/
def postsNodup (db : DB) : Prop := (db.posts.map Post.id).Nodup

/-- The deployed configuration: a moderation chat is set and the bot runs. -/
def cfgStd : Cfg := { moderation_chat_id := 1, bot_active := true }

/-- A user row with the given id and `post_limit`. -/
def mkUser (telegram_id : Int) (post_limit : Int) : User :=
  { telegram_id := telegram_id, username := "", first_name := "", last_name := "",
    photo_url := "", favorites := [], hidden := [], liked := [], reported_posts := [],
    is_banned := false, ban_reason := none, post_limit := post_limit, language := "ru" }

/-- A post row with the given id, author and status. -/
def mkPost (id : Nat) (telegram_id : Int) (status : String) : Post :=
  { id := id, telegram_id := telegram_id, description := "sample description",
    category := "c", tags := [], likes := 0, status := status, is_edit := false,
    original_post_id := none, created_at := 0, creator_id := telegram_id }

/-- User 1 with limit 1 and one approved post: the quota is exhausted. -/
def dbQuota : DB :=
  { users := [mkUser 1 1], posts := [mkPost 1 1 "approved"], reports := [],
    nextPostId := 2, now := 1 }

/-- User 1 with limit 1 and no posts. -/
def dbFree : DB :=
  { users := [mkUser 1 1], posts := [], reports := [], nextPostId := 1, now := 0 }

/-- User 1 and one PENDING post. -/
def dbPending : DB :=
  { users := [mkUser 1 1], posts := [mkPost 1 1 "pending"], reports := [],
    nextPostId := 2, now := 1 }

/-- User 1 and one REJECTED post. -/
def dbRejected : DB :=
  { users := [mkUser 1 1], posts := [mkPost 1 1 "rejected"], reports := [],
    nextPostId := 2, now := 1 }

/-- A pending post (id 5, author 42) awaiting a moderation decision. -/
def dbTicket : DB :=
  { users := [], posts := [mkPost 5 42 "pending"], reports := [],
    nextPostId := 6, now := 1 }

/-- Author 1 with an approved post, plus a second user 9 (the reporter). -/
def dbReport : DB :=
  { users := [mkUser 1 1, mkUser 9 60], posts := [mkPost 1 1 "approved"],
    reports := [], nextPostId := 2, now := 1 }

/-- Same as `dbQuota` but user 1 is banned. -/
def dbBanned : DB :=
  { users := [{ mkUser 1 1 with is_banned := true }], posts := [mkPost 1 1 "approved"],
    reports := [], nextPostId := 2, now := 1 }

/-- A well-formed `create_post` request by user 1 (description of length 5). -/
def msgCreate : InMsg :=
  { type := "create_post", telegram_id := some 1, description := "abcde",
    category := "c", creator_id := 1 }

/-- A `report_post` request by user 9 against post 1. -/
def msgReport : InMsg :=
  { type := "report_post", telegram_id := some 9, post_id := 1 }

/-- A `delete_post` request by user 1 for the nonexistent post 99. -/
def msgDelete : InMsg :=
  { type := "delete_post", telegram_id := some 1, post_id := 99 }

/-- A `get_user_limits` request by user 1. -/
def msgLimits : InMsg := { type := "get_user_limits", telegram_id := some 1 }

/-- The recognized actions whose handler branch replies on every path. -/
def replyActions : List String :=
  ["sync_user", "create_post", "get_posts", "get_post_for_edit",
   "get_user_limits", "add_to_favorites", "hide_post"]

/-- The recognized actions outside the banned-user gate. -/
def otherActions : List String :=
  ["delete_post", "add_to_favorites", "hide_post", "get_posts",
   "get_post_for_edit", "get_user_limits", "sync_user"]

/-! ### Helper lemmas about `updateWhere`, `find?` and `countP` -/

theorem updateWhere_nil (c : α → Bool) (f : α → α) : updateWhere c f [] = [] := rfl

theorem updateWhere_cons (c : α → Bool) (f : α → α) (a : α) (t : List α) :
    updateWhere c f (a :: t) = (if c a then f a else a) :: updateWhere c f t := rfl

theorem updateWhere_eq_self {c : α → Bool} {f : α → α} {l : List α}
    (h : ∀ a ∈ l, c a = false) : updateWhere c f l = l := by
  induction l with
  | nil => rfl
  | cons a t ih =>
    rw [updateWhere_cons, ih (fun b hb => h b (List.mem_cons_of_mem a hb))]
    simp [h a (List.mem_cons_self a t)]

theorem find?_updateWhere (c : α → Bool) (f : α → α) (q : α → Bool) (l : List α)
    (hq : ∀ a, q (if c a then f a else a) = q a) :
    (updateWhere c f l).find? q = (l.find? q).map (fun a => if c a then f a else a) := by
  induction l with
  | nil => rfl
  | cons a t ih =>
    rw [updateWhere_cons]
    by_cases hqa : q a = true
    · rw [List.find?_cons_of_pos _ (by rw [hq]; exact hqa), List.find?_cons_of_pos _ hqa]
      rfl
    · rw [List.find?_cons_of_neg _ (by rw [hq]; exact hqa), List.find?_cons_of_neg _ hqa]
      exact ih

theorem countP_filter_split (c d : α → Bool) (l : List α) :
    l.countP c
      = (l.filter (fun a => !(d a))).countP c + l.countP (fun a => d a && c a) := by
  induction l with
  | nil => rfl
  | cons a t ih =>
    by_cases hd : d a = true <;> by_cases hc : c a = true <;>
      simp [List.countP_cons, List.filter_cons, hd, hc] <;> omega

theorem countP_key_unique {β : Type} [BEq β] [LawfulBEq β] (k : α → β) (x : β)
    (l : List α) (hn : (l.map k).Nodup) (u : α)
    (hu : l.find? (fun a => k a == x) = some u)
    (c : α → Bool) (hcu : c u = true) (hck : ∀ a, c a = true → k a = x) :
    l.countP c = 1 := by
  induction l with
  | nil => simp at hu
  | cons a t ih =>
    rw [List.map_cons, List.nodup_cons] at hn
    by_cases hka : ((k a == x) = true)
    · rw [List.find?_cons_of_pos (p := fun b => k b == x) t hka] at hu
      injection hu with hu
      subst hu
      have hxa : k a = x := by simpa using hka
      have ht : t.countP c = 0 := by
        rw [List.countP_eq_zero]
        intro b hb hcb
        exact hn.1 (by rw [hxa, ← hck b hcb]; exact List.mem_map_of_mem k hb)
      rw [List.countP_cons, ht, hcu]
      rfl
    · rw [List.find?_cons_of_neg (p := fun b => k b == x) t hka] at hu
      have hca : c a = false := by
        by_contra h
        have h' : c a = true := by simpa using h
        exact hka (by simp [hck a h'])
      rw [List.countP_cons, hca]
      simpa using ih hn.2 hu

theorem countP_updateWhere_key {β : Type} [BEq β] [LawfulBEq β] (k : α → β) (x : β)
    (f : α → α) (q : α → Bool) (l : List α)
    (hn : (l.map k).Nodup) (u : α)
    (hu : l.find? (fun a => k a == x) = some u) :
    ((updateWhere (fun a => k a == x) f l).countP q : Int)
      = (l.countP q : Int) - (if q u then 1 else 0) + (if q (f u) then 1 else 0) := by
  induction l with
  | nil => simp at hu
  | cons a t ih =>
    rw [List.map_cons, List.nodup_cons] at hn
    by_cases hka : ((k a == x) = true)
    · rw [List.find?_cons_of_pos (p := fun b => k b == x) t hka] at hu
      injection hu with hu
      subst hu
      have hxa : k a = x := by simpa using hka
      have hrest : updateWhere (fun b => k b == x) f t = t := by
        apply updateWhere_eq_self
        intro b hb
        by_contra h
        have hbx : k b = x := by simpa using h
        exact hn.1 (by rw [hxa, ← hbx]; exact List.mem_map_of_mem k hb)
      rw [updateWhere_cons, if_pos hka, hrest]
      rw [List.countP_cons, List.countP_cons]
      split_ifs <;> push_cast <;> omega
    · rw [List.find?_cons_of_neg (p := fun b => k b == x) t hka] at hu
      have hthis := ih hn.2 hu
      rw [updateWhere_cons, if_neg hka]
      rw [List.countP_cons, List.countP_cons]
      push_cast
      rw [hthis]
      ring


theorem find?_set_status (l : List Post) (post_id : Nat) (p : Post) (s : String)
    (hp : l.find? (fun q => q.id == post_id) = some p) :
    (updateWhere (fun q => q.id == post_id) (fun q => { q with status := s })
        l).find? (fun q => q.id == post_id) = some { p with status := s } := by
  have hpid : (p.id == post_id) = true :=
    List.find?_some (p := fun q : Post => q.id == post_id) hp
  rw [find?_updateWhere _ _ _ _
    (fun a => by by_cases h : ((a.id == post_id) = true) <;> simp [h]), hp]
  simp only [Option.map_some']
  rw [if_pos hpid]

/-! ### Claim theorems -/

/-- C9 (confirmed): `reject_post` on an existing post stores status
`'rejected'` but returns the row exactly as read before the update, so the
returned record still shows the pre-transition status (`'pending'` when a
pending post is rejected). -/
theorem c9_reject_returns_stale (db : DB) (post_id : Nat) (p : Post)
    (hp : findPost db post_id = some p) :
    (reject_post db post_id).2 = some p ∧
    (findPost (reject_post db post_id).1 post_id).map Post.status = some "rejected" ∧
    (p.status = "pending" →
      ((reject_post db post_id).2).map Post.status = some "pending") := by
  have hp' : db.posts.find? (fun q => q.id == post_id) = some p := hp
  refine ⟨?_, ?_, ?_⟩
  · simp [reject_post, hp]
  · simp only [reject_post, findPost, hp']
    rw [find?_set_status db.posts post_id p "rejected" hp']
    rfl
  · intro hs
    simp [reject_post, hp, hs]

/-- Witness for C9 at a concrete pending post. -/
theorem c9_witness :
    findPost dbPending 1 = some (mkPost 1 1 "pending") ∧
    ((reject_post dbPending 1).2 = some (mkPost 1 1 "pending") ∧
     (findPost (reject_post dbPending 1).1 1).map Post.status = some "rejected" ∧
     ((mkPost 1 1 "pending").status = "pending" →
       ((reject_post dbPending 1).2).map Post.status = some "pending")) :=
  ⟨rfl, c9_reject_returns_stale dbPending 1 (mkPost 1 1 "pending") rfl⟩

/-- C5 counterexample: approving the concrete REJECTED post `mkPost 1 1
"rejected"` moves its stored status to `'approved'`, so a transition does
leave `rejected`, contrary to the claim. -/
theorem c5_counterexample :
    findPost dbRejected 1 = some (mkPost 1 1 "rejected") ∧
    (findPost (approve_post dbRejected 1).1 1).map Post.status = some "approved" ∧
    some "approved" ≠ some ("rejected" : String) :=
  ⟨rfl, rfl, by decide⟩

/-- C5 amended: `reject` leaves a rejected post rejected, but `approve` of a
rejected non-edit post sets its stored status to `'approved'`: the
`rejected` status is not preserved by approve. -/
theorem c5_rejected_under_transitions (db : DB) (post_id : Nat) (p : Post)
    (hp : findPost db post_id = some p) (hs : p.status = "rejected") :
    (findPost (reject_post db post_id).1 post_id).map Post.status = some "rejected" ∧
    (p.is_edit = false →
      (findPost (approve_post db post_id).1 post_id).map Post.status = some "approved") := by
  have hp' : db.posts.find? (fun q => q.id == post_id) = some p := hp
  constructor
  · simp only [reject_post, findPost, hp']
    rw [find?_set_status db.posts post_id p "rejected" hp']
    rfl
  · intro hedit
    rcases hop : p.original_post_id with _ | orig
    · simp only [approve_post, findPost, hp', hop]
      rw [find?_set_status db.posts post_id p "approved" hp']
      rfl
    · simp only [approve_post, findPost, hp', hop, hedit, Bool.false_and, Bool.false_eq_true,
        if_false]
      rw [find?_set_status db.posts post_id p "approved" hp']
      rfl

/-- Witness for C5 at the concrete rejected post. -/
theorem c5_witness :
    findPost dbRejected 1 = some (mkPost 1 1 "rejected") ∧
    (mkPost 1 1 "rejected").status = "rejected" ∧
    ((findPost (reject_post dbRejected 1).1 1).map Post.status = some "rejected" ∧
     ((mkPost 1 1 "rejected").is_edit = false →
       (findPost (approve_post dbRejected 1).1 1).map Post.status = some "approved")) :=
  ⟨rfl, rfl, c5_rejected_under_transitions dbRejected 1 (mkPost 1 1 "rejected") rfl rfl⟩

/-- C2 counterexample: in `dbPending` post 1 is PENDING with `likes = 0` and
no user likes it, so `like_count = |likers|`.  One `like_post` toggle adds
the post to user 1's liked-set (making `|likers| = 1`) but leaves
`like_count` at 0 (the counter update carries `AND status = 'approved'`), so
the toggle does not change `like_count` by 1 and breaks the equality. -/
theorem c2_counterexample :
    dbPending.users.countP (fun v => v.liked.contains 1) = 0 ∧
    (findPost dbPending 1).map Post.likes = some 0 ∧
    (like_post dbPending 1 1).1.users.countP (fun v => v.liked.contains 1) = 1 ∧
    (findPost (like_post dbPending 1 1).1 1).map Post.likes = some 0 ∧
    (0 : Int) ≠ (1 : Nat) :=
  ⟨rfl, rfl, rfl, rfl, by decide⟩

/-- C2 amended: the stated toggle/counter contract holds for APPROVED posts:
if the post is approved and `like_count` equals the number of likers, one
`like_post` flips the caller's membership, moves `like_count` by exactly 1
in the matching direction, keeps the equality, and keeps the counter
non-negative.  (For a non-approved post only the membership flips and the
counter is unchanged, as the counterexample shows.) -/
theorem c2_like_toggle_approved (db : DB) (post_id : Nat) (telegram_id : Int)
    (p : Post) (u : User)
    (hp : findPost db post_id = some p) (hs : p.status = "approved")
    (hu : findUser db telegram_id = some u) (hn : usersNodup db)
    (hinv : p.likes = (db.users.countP (fun v => v.liked.contains post_id) : Int)) :
    ∃ p', findPost (like_post db post_id telegram_id).1 post_id = some p' ∧
      p'.likes = ((like_post db post_id telegram_id).1.users.countP
          (fun v => v.liked.contains post_id) : Int) ∧
      0 ≤ p'.likes ∧
      (if u.liked.contains post_id then
        (like_post db post_id telegram_id).2 = some (p', "removed") ∧
          p'.likes = p.likes - 1
      else
        (like_post db post_id telegram_id).2 = some (p', "added") ∧
          p'.likes = p.likes + 1) := by
  have hp' : db.posts.find? (fun q => q.id == post_id) = some p := hp
  have hu' : db.users.find? (fun v => v.telegram_id == telegram_id) = some u := hu
  have hpid : (p.id == post_id) = true :=
    List.find?_some (p := fun q : Post => q.id == post_id) hp'
  have hps : (p.status == "approved") = true := by simp [hs]
  have humem : u ∈ db.users := List.mem_of_find?_eq_some hu'
  have hq : ∀ c : Post → Bool, ∀ g : Int → Int, ∀ a : Post,
      (((if c a then { a with likes := g a.likes } else a).id) == post_id)
        = (a.id == post_id) := by
    intro c g a
    by_cases h : (c a = true) <;> simp [h]
  by_cases hl : (u.liked.contains post_id = true)
  · have hfind :
        (updateWhere (fun q => q.id == post_id && q.status == "approved")
          (fun q => { q with likes := q.likes - 1 }) db.posts).find?
            (fun q => q.id == post_id) = some { p with likes := p.likes - 1 } := by
      rw [find?_updateWhere _ _ _ _ (hq _ (fun x => x - 1)), hp']
      have hc : (p.id == post_id && p.status == "approved") = true := by
        rw [hpid, hps]
        rfl
      simp only [Option.map_some']
      rw [if_pos hc]
    have hcnt :
        ((updateWhere (fun v => v.telegram_id == telegram_id)
            (fun v => { v with liked := v.liked.filter (fun x => x != post_id) })
            db.users).countP (fun v => v.liked.contains post_id) : Int)
        = (db.users.countP (fun v => v.liked.contains post_id) : Int) - 1 := by
      rw [countP_updateWhere_key User.telegram_id telegram_id _ _ db.users hn u hu']
      have hmem2 : post_id ∈ u.liked := by simpa using hl
      simp [hl, hmem2]
    have hpos : 0 < db.users.countP (fun v => v.liked.contains post_id) :=
      List.countP_pos_iff.mpr ⟨u, humem, hl⟩
    refine ⟨{ p with likes := p.likes - 1 }, ?_, ?_, ?_, ?_⟩
    · simp only [like_post, hu, hl, if_true, findPost]
      exact hfind
    · simp only [like_post, hu, hl, if_true]
      rw [hcnt]
      omega
    · show 0 ≤ p.likes - 1
      omega
    · simp only [hl, if_true]
      refine ⟨?_, by trivial⟩
      simp only [like_post, hu, hl, if_true, findPost]
      rw [hfind]
      rfl
  · have hl' : u.liked.contains post_id = false := by simpa using hl
    have hfind :
        (updateWhere (fun q => q.id == post_id && q.status == "approved")
          (fun q => { q with likes := q.likes + 1 }) db.posts).find?
            (fun q => q.id == post_id) = some { p with likes := p.likes + 1 } := by
      rw [find?_updateWhere _ _ _ _ (hq _ (fun x => x + 1)), hp']
      have hc : (p.id == post_id && p.status == "approved") = true := by
        rw [hpid, hps]
        rfl
      simp only [Option.map_some']
      rw [if_pos hc]
    have hcnt :
        ((updateWhere (fun v => v.telegram_id == telegram_id)
            (fun v => { v with liked := v.liked ++ [post_id] })
            db.users).countP (fun v => v.liked.contains post_id) : Int)
        = (db.users.countP (fun v => v.liked.contains post_id) : Int) + 1 := by
      rw [countP_updateWhere_key User.telegram_id telegram_id _ _ db.users hn u hu']
      have hnmem : post_id ∉ u.liked := by simpa using hl'
      simp [hl', hnmem]
    refine ⟨{ p with likes := p.likes + 1 }, ?_, ?_, ?_, ?_⟩
    · simp only [like_post, hu, hl', Bool.false_eq_true, if_false, findPost]
      exact hfind
    · simp only [like_post, hu, hl', Bool.false_eq_true, if_false]
      rw [hcnt]
      omega
    · show 0 ≤ p.likes + 1
      have : (0 : Int) ≤ (db.users.countP (fun v => v.liked.contains post_id) : Int) :=
        Int.ofNat_nonneg _
      omega
    · simp only [hl', Bool.false_eq_true, if_false]
      refine ⟨?_, by trivial⟩
      simp only [like_post, hu, hl', Bool.false_eq_true, if_false, findPost]
      rw [hfind]
      rfl

/-- Witness for C2 at a concrete approved post with zero likes. -/
theorem c2_witness :
    findPost dbQuota 1 = some (mkPost 1 1 "approved") ∧
    (mkPost 1 1 "approved").status = "approved" ∧
    findUser dbQuota 1 = some (mkUser 1 1) ∧
    usersNodup dbQuota ∧
    (mkPost 1 1 "approved").likes
      = (dbQuota.users.countP (fun v => v.liked.contains 1) : Int) ∧
    (∃ p', findPost (like_post dbQuota 1 1).1 1 = some p' ∧
      p'.likes = ((like_post dbQuota 1 1).1.users.countP
          (fun v => v.liked.contains 1) : Int) ∧
      0 ≤ p'.likes ∧
      (if (mkUser 1 1).liked.contains 1 then
        (like_post dbQuota 1 1).2 = some (p', "removed") ∧
          p'.likes = (mkPost 1 1 "approved").likes - 1
      else
        (like_post dbQuota 1 1).2 = some (p', "added") ∧
          p'.likes = (mkPost 1 1 "approved").likes + 1)) :=
  ⟨rfl, rfl, rfl, by unfold usersNodup; decide, rfl,
    c2_like_toggle_approved dbQuota 1 1 (mkPost 1 1 "approved") (mkUser 1 1)
      rfl rfl rfl (by unfold usersNodup; decide) rfl⟩


theorem length_filter_not (d : α → Bool) (l : List α) :
    (l.filter (fun a => !(d a))).length = l.length - l.countP d := by
  induction l with
  | nil => rfl
  | cons a t ih =>
    have hle : t.countP d ≤ t.length := by
      rw [List.countP_eq_length_filter]
      exact List.length_filter_le _ _
    cases hd : d a with
    | true =>
      simp [List.filter_cons, List.countP_cons, hd]
      omega
    | false =>
      simp [List.filter_cons, List.countP_cons, hd]
      omega

/-- C4 counterexample: with quota available, `create_post` with the
5-character description `"abcde"` is accepted: the handler replies
`post_created` and inserts the row, so a description shorter than 10
characters does NOT fail with a validation error. -/
theorem c4_counterexample :
    msgCreate.description.length < 10 ∧
    (handle_websocket_message cfgStd [] dbFree msgCreate).replies
      = [OutMsg.postCreated false] ∧
    (handle_websocket_message cfgStd [] dbFree msgCreate).db.posts.length = 1 :=
  ⟨by decide, rfl, rfl⟩

/-- C4 amended: the create path performs NO length validation at all: for a
well-formed `create_post` request by a permitted user whose quota check
passes, the handler inserts a pending post carrying the submitted
description unchanged — whatever its length — and replies `post_created`;
no `ValidationError`-style outcome exists on this path. -/
theorem c4_no_length_validation (db : DB) (clients : List Session) (m : InMsg)
    (hact : m.type = "create_post") (ht : pyTruthy m.telegram_id = true)
    (hb : is_user_banned db (m.telegram_id.getD 0) = false)
    (hq : check_user_limit db (m.telegram_id.getD 0) = true) :
    (handle_websocket_message cfgStd clients db m).replies
      = [OutMsg.postCreated m.is_edit] ∧
    (handle_websocket_message cfgStd clients db m).db.posts
      = db.posts ++ [{ id := db.nextPostId
                       telegram_id := m.telegram_id.getD 0
                       description := m.description
                       category := m.category
                       tags := m.tags
                       likes := 0
                       status := "pending"
                       is_edit := m.is_edit
                       original_post_id := m.original_post_id
                       created_at := db.now
                       creator_id := m.creator_id }] := by
  constructor <;>
    simp [handle_websocket_message, ht, hb, dispatch_action, hact, hq,
      create_post, send_for_moderation, cfgStd]

/-- Witness for C4: the 5-character description is inserted verbatim. -/
theorem c4_witness :
    msgCreate.type = "create_post" ∧
    pyTruthy msgCreate.telegram_id = true ∧
    is_user_banned dbFree (msgCreate.telegram_id.getD 0) = false ∧
    check_user_limit dbFree (msgCreate.telegram_id.getD 0) = true ∧
    ((handle_websocket_message cfgStd [] dbFree msgCreate).replies
        = [OutMsg.postCreated msgCreate.is_edit] ∧
     (handle_websocket_message cfgStd [] dbFree msgCreate).db.posts
        = dbFree.posts ++ [{ id := dbFree.nextPostId
                             telegram_id := msgCreate.telegram_id.getD 0
                             description := msgCreate.description
                             category := msgCreate.category
                             tags := msgCreate.tags
                             likes := 0
                             status := "pending"
                             is_edit := msgCreate.is_edit
                             original_post_id := msgCreate.original_post_id
                             created_at := dbFree.now
                             creator_id := msgCreate.creator_id }]) :=
  ⟨rfl, rfl, rfl, rfl, c4_no_length_validation dbFree [] msgCreate rfl rfl rfl rfl⟩


/-- C1 (confirmed): for a well-formed `create_post` request by a permitted
(non-banned) user `U`, the handler refuses with the `limit_exceeded`
(QuotaExceeded) outcome and leaves the store untouched EXACTLY when the
count of `U`'s approved posts is at least `U`'s limit — both recomputed from
the store at the check; and when the count equals the limit, deleting one of
`U`'s approved posts makes the very same `create_post` request succeed
(reply `post_created`, a new pending row inserted). -/
theorem c1_quota_check (db : DB) (clients : List Session) (m : InMsg)
    (hact : m.type = "create_post")
    (ht : pyTruthy m.telegram_id = true)
    (hb : is_user_banned db (m.telegram_id.getD 0) = false) :
    (((handle_websocket_message cfgStd clients db m).replies = [OutMsg.limitExceeded] ∧
      (handle_websocket_message cfgStd clients db m).db = db)
      ↔ get_user_limit db (m.telegram_id.getD 0)
          ≤ (get_user_published_posts_count db (m.telegram_id.getD 0) : Int)) ∧
    (∀ pid p, findPost db pid = some p →
      p.telegram_id = m.telegram_id.getD 0 →
      p.status = "approved" →
      postsNodup db →
      (get_user_published_posts_count db (m.telegram_id.getD 0) : Int)
        = get_user_limit db (m.telegram_id.getD 0) →
      (delete_post db pid (some (m.telegram_id.getD 0))).2 = true ∧
      (handle_websocket_message cfgStd clients
          (delete_post db pid (some (m.telegram_id.getD 0))).1 m).replies
        = [OutMsg.postCreated m.is_edit] ∧
      (handle_websocket_message cfgStd clients
          (delete_post db pid (some (m.telegram_id.getD 0))).1 m).db.posts.length
        = db.posts.length) := by
  have hne : ((m.telegram_id.getD 0) != 0) = true := by
    rcases hmt : m.telegram_id with _ | t
    · rw [hmt] at ht
      simp [pyTruthy] at ht
    · rw [hmt] at ht
      simpa [pyTruthy] using ht
  constructor
  · by_cases hch : (check_user_limit db (m.telegram_id.getD 0) = true)
    · have hlt : (get_user_published_posts_count db (m.telegram_id.getD 0) : Int)
          < get_user_limit db (m.telegram_id.getD 0) := by
        simpa [check_user_limit] using hch
      constructor
      · intro hcontra
        exfalso
        have hr := hcontra.1
        simp [handle_websocket_message, ht, hb, dispatch_action, hact, hch] at hr
      · intro hle
        exfalso
        omega
    · have hch' : check_user_limit db (m.telegram_id.getD 0) = false := by
        simpa using hch
      have hge : get_user_limit db (m.telegram_id.getD 0)
          ≤ (get_user_published_posts_count db (m.telegram_id.getD 0) : Int) := by
        have h1 : ¬ ((get_user_published_posts_count db (m.telegram_id.getD 0) : Int)
            < get_user_limit db (m.telegram_id.getD 0)) := by
          simpa [check_user_limit] using hch
        omega
      constructor
      · intro _
        exact hge
      · intro _
        constructor <;>
          simp [handle_websocket_message, ht, hb, dispatch_action, hact, hch']
  · intro pid p hpfind hpu hpstat hnd heq
    have hp' : db.posts.find? (fun q => q.id == pid) = some p := hpfind
    have hnd' : (db.posts.map Post.id).Nodup := hnd
    have hpid : (p.id == pid) = true :=
      List.find?_some (p := fun q : Post => q.id == pid) hp'
    have hptel : (p.telegram_id == m.telegram_id.getD 0) = true := by simp [hpu]
    have hpst : (p.status == "approved") = true := by simp [hpstat]
    have hcnt1 : db.posts.countP
        (fun q => q.id == pid && q.telegram_id == m.telegram_id.getD 0) = 1 := by
      apply countP_key_unique Post.id pid db.posts hnd' p hp'
      · simp [hpid, hptel]
      · intro a h
        simp only [Bool.and_eq_true, beq_iff_eq] at h
        exact h.1
    have hdel2 : (delete_post db pid (some (m.telegram_id.getD 0))).2 = true := by
      simp [delete_post, hne, hcnt1]
    have hdposts : (delete_post db pid (some (m.telegram_id.getD 0))).1.posts
        = db.posts.filter
            (fun q => !(q.id == pid && q.telegram_id == m.telegram_id.getD 0)) := by
      simp [delete_post, hne]
    have hcnt2 : db.posts.countP (fun a =>
        (a.id == pid && a.telegram_id == m.telegram_id.getD 0) &&
        (a.telegram_id == m.telegram_id.getD 0 && a.status == "approved")) = 1 := by
      apply countP_key_unique Post.id pid db.posts hnd' p hp'
      · simp [hpid, hptel, hpst]
      · intro a h
        simp only [Bool.and_eq_true, beq_iff_eq] at h
        exact h.1.1
    have hsplit := countP_filter_split
      (fun a => a.telegram_id == m.telegram_id.getD 0 && a.status == "approved")
      (fun a => a.id == pid && a.telegram_id == m.telegram_id.getD 0) db.posts
    have hge1 : 1 ≤ db.posts.countP
        (fun a => a.telegram_id == m.telegram_id.getD 0 && a.status == "approved") := by
      rw [hsplit, hcnt2]
      omega
    have hcount2 : (db.posts.filter
          (fun q => !(q.id == pid && q.telegram_id == m.telegram_id.getD 0))).countP
        (fun a => a.telegram_id == m.telegram_id.getD 0 && a.status == "approved")
        = db.posts.countP
            (fun a => a.telegram_id == m.telegram_id.getD 0 && a.status == "approved")
          - 1 := by
      rw [hcnt2] at hsplit
      omega
    have hb2 : is_user_banned (delete_post db pid (some (m.telegram_id.getD 0))).1
        (m.telegram_id.getD 0) = false := hb
    have heq' : (db.posts.countP
          (fun a => a.telegram_id == m.telegram_id.getD 0 && a.status == "approved") : Int)
        = get_user_limit db (m.telegram_id.getD 0) := heq
    have hch2 : check_user_limit (delete_post db pid (some (m.telegram_id.getD 0))).1
        (m.telegram_id.getD 0) = true := by
      have hlim : get_user_limit (delete_post db pid (some (m.telegram_id.getD 0))).1
          (m.telegram_id.getD 0) = get_user_limit db (m.telegram_id.getD 0) := rfl
      simp only [check_user_limit, get_user_published_posts_count, hlim]
      rw [hdposts, hcount2]
      simp only [decide_eq_true_eq]
      omega
    refine ⟨hdel2, ?_, ?_⟩
    · simp [handle_websocket_message, ht, hb2, dispatch_action, hact, hch2]
    · have hlen : 1 ≤ db.posts.length := by
        exact List.length_pos_of_mem (List.mem_of_find?_eq_some hp')
      have hc1le : db.posts.countP
          (fun q => q.id == pid && q.telegram_id == m.telegram_id.getD 0)
            ≤ db.posts.length := by
        rw [List.countP_eq_length_filter]
        exact List.length_filter_le _ _
      simp [handle_websocket_message, ht, hb2, dispatch_action, hact, hch2,
        create_post, send_for_moderation, cfgStd]
      rw [hdposts, length_filter_not, hcnt1]
      omega

/-- Witness for C1 at the concrete exhausted quota (limit 1, one approved
post), applying the theorem at `dbQuota`/`msgCreate`. -/
theorem c1_witness :
    msgCreate.type = "create_post" ∧
    pyTruthy msgCreate.telegram_id = true ∧
    is_user_banned dbQuota (msgCreate.telegram_id.getD 0) = false ∧
    ((((handle_websocket_message cfgStd [] dbQuota msgCreate).replies
          = [OutMsg.limitExceeded] ∧
       (handle_websocket_message cfgStd [] dbQuota msgCreate).db = dbQuota)
      ↔ get_user_limit dbQuota (msgCreate.telegram_id.getD 0)
          ≤ (get_user_published_posts_count dbQuota (msgCreate.telegram_id.getD 0) : Int)) ∧
     (∀ pid p, findPost dbQuota pid = some p →
      p.telegram_id = msgCreate.telegram_id.getD 0 →
      p.status = "approved" →
      postsNodup dbQuota →
      (get_user_published_posts_count dbQuota (msgCreate.telegram_id.getD 0) : Int)
        = get_user_limit dbQuota (msgCreate.telegram_id.getD 0) →
      (delete_post dbQuota pid (some (msgCreate.telegram_id.getD 0))).2 = true ∧
      (handle_websocket_message cfgStd []
          (delete_post dbQuota pid (some (msgCreate.telegram_id.getD 0))).1
          msgCreate).replies
        = [OutMsg.postCreated msgCreate.is_edit] ∧
      (handle_websocket_message cfgStd []
          (delete_post dbQuota pid (some (msgCreate.telegram_id.getD 0))).1
          msgCreate).db.posts.length
        = dbQuota.posts.length)) :=
  ⟨rfl, rfl, rfl, c1_quota_check dbQuota [] msgCreate rfl rfl rfl⟩


/-- C3 counterexample: the moderation callback has no closed-ticket check.
Deciding `reject` twice on the same pending post sends the author
notification on BOTH calls — the second call does not return the prior result
without re-notifying, it notifies again. -/
theorem c3_counterexample :
    (handle_moderation_callback cfgStd [] dbTicket "reject" 5).notifs
      = [Notif.rejectedNotice 42 false] ∧
    (handle_moderation_callback cfgStd []
        (handle_moderation_callback cfgStd [] dbTicket "reject" 5).db
        "reject" 5).notifs
      = [Notif.rejectedNotice 42 false] :=
  ⟨rfl, rfl⟩

/-- C3 amended: `decide` is idempotent on the post's stored status (after one
or two identical reject decisions the status is `'rejected'`), but NOT on
side effects: each call on an existing post re-applies the transition and
sends the author one notification, so two calls notify twice — never "the
prior result without re-notifying". -/
theorem c3_decide_renotifies (cfg : Cfg) (clients : List Session) (db : DB)
    (post_id : Nat) (p : Post) (hp : findPost db post_id = some p) :
    (handle_moderation_callback cfg clients db "reject" post_id).notifs
      = [Notif.rejectedNotice p.creator_id p.is_edit] ∧
    (handle_moderation_callback cfg clients
        (handle_moderation_callback cfg clients db "reject" post_id).db
        "reject" post_id).notifs
      = [Notif.rejectedNotice p.creator_id p.is_edit] ∧
    (findPost (handle_moderation_callback cfg clients db "reject" post_id).db
        post_id).map Post.status = some "rejected" ∧
    (findPost (handle_moderation_callback cfg clients
        (handle_moderation_callback cfg clients db "reject" post_id).db
        "reject" post_id).db post_id).map Post.status = some "rejected" := by
  have hp' : db.posts.find? (fun q => q.id == post_id) = some p := hp
  have h1 : handle_moderation_callback cfg clients db "reject" post_id
      = { db := { db with posts := updateWhere (fun q => q.id == post_id) (fun q => { q with status := "rejected" }) db.posts }
          broadcasts := []
          notifs := [Notif.rejectedNotice p.creator_id p.is_edit]
          surface := [SurfaceMsg.rejectedText p.is_edit] } := by
    simp [handle_moderation_callback, get_post_by_id, findPost, hp', reject_post]
  have hfind1 : ((updateWhere (fun q => q.id == post_id)
        (fun q => { q with status := "rejected" }) db.posts).find?
        (fun q => q.id == post_id)) = some { p with status := "rejected" } :=
    find?_set_status db.posts post_id p "rejected" hp'
  have h2 : handle_moderation_callback cfg clients
      { db with posts := updateWhere (fun q => q.id == post_id) (fun q => { q with status := "rejected" }) db.posts } "reject" post_id
      = { db := { db with posts := updateWhere (fun q => q.id == post_id) (fun q => { q with status := "rejected" }) (updateWhere (fun q => q.id == post_id) (fun q => { q with status := "rejected" }) db.posts) }
          broadcasts := []
          notifs := [Notif.rejectedNotice p.creator_id p.is_edit]
          surface := [SurfaceMsg.rejectedText p.is_edit] } := by
    simp [handle_moderation_callback, get_post_by_id, findPost, hfind1, reject_post]
  refine ⟨?_, ?_, ?_, ?_⟩
  · rw [h1]
  · rw [h1, h2]
  · rw [h1]
    simp only [findPost]
    rw [hfind1]
    rfl
  · rw [h1, h2]
    simp only [findPost]
    rw [find?_set_status _ post_id { p with status := "rejected" } "rejected" hfind1]
    rfl

/-- Witness for C3 at the concrete pending post of `dbTicket`. -/
theorem c3_witness :
    findPost dbTicket 5 = some (mkPost 5 42 "pending") ∧
    ((handle_moderation_callback cfgStd [] dbTicket "reject" 5).notifs
       = [Notif.rejectedNotice (mkPost 5 42 "pending").creator_id
           (mkPost 5 42 "pending").is_edit] ∧
     (handle_moderation_callback cfgStd []
         (handle_moderation_callback cfgStd [] dbTicket "reject" 5).db
         "reject" 5).notifs
       = [Notif.rejectedNotice (mkPost 5 42 "pending").creator_id
           (mkPost 5 42 "pending").is_edit] ∧
     (findPost (handle_moderation_callback cfgStd [] dbTicket "reject" 5).db
         5).map Post.status = some "rejected" ∧
     (findPost (handle_moderation_callback cfgStd []
         (handle_moderation_callback cfgStd [] dbTicket "reject" 5).db
         "reject" 5).db 5).map Post.status = some "rejected") :=
  ⟨rfl, c3_decide_renotifies cfgStd [] dbTicket 5 (mkPost 5 42 "pending") rfl⟩

/-- C7 counterexample: `set_user_limit` for user 5 delivers the
`user_limits_updated` (quota) event also to the session associated with
user 7 — the event is NOT restricted to the target user's sessions. -/
theorem c7_counterexample :
    (⟨2, 7⟩, BMsg.userLimitsUpdated 5 0 10)
      ∈ (set_user_limit dbFree [⟨1, 5⟩, ⟨2, 7⟩] 5 10).2 ∧
    (7 : Int) ≠ 5 :=
  ⟨by decide, by decide⟩

/-- C7 amended: on `set_user_limit` the `user_limits_updated` event (which
carries the target `telegram_id` in its payload) is handed by
`broadcast_message` to EVERY connected session, regardless of which user a
session is associated with. -/
theorem c7_limit_event_broadcast (db : DB) (clients : List Session)
    (telegram_id limit : Int) :
    (set_user_limit db clients telegram_id limit).2
      = clients.map (fun ws => (ws, BMsg.userLimitsUpdated telegram_id
          (get_user_published_posts_count db telegram_id) limit)) ∧
    ∀ ws ∈ clients, (ws, BMsg.userLimitsUpdated telegram_id
          (get_user_published_posts_count db telegram_id) limit)
        ∈ (set_user_limit db clients telegram_id limit).2 := by
  have h1 : (set_user_limit db clients telegram_id limit).2
      = clients.map (fun ws => (ws, BMsg.userLimitsUpdated telegram_id
          (get_user_published_posts_count db telegram_id) limit)) := rfl
  refine ⟨h1, ?_⟩
  intro ws hws
  rw [h1]
  exact List.mem_map_of_mem _ hws

/-- Witness for C7: both connected sessions receive the event. -/
theorem c7_witness :
    ((set_user_limit dbFree [⟨1, 5⟩, ⟨2, 7⟩] 5 10).2
      = [⟨1, 5⟩, ⟨2, 7⟩].map (fun ws => (ws, BMsg.userLimitsUpdated 5
          (get_user_published_posts_count dbFree 5) 10)) ∧
     ∀ ws ∈ ([⟨1, 5⟩, ⟨2, 7⟩] : List Session),
       (ws, BMsg.userLimitsUpdated 5 (get_user_published_posts_count dbFree 5) 10)
         ∈ (set_user_limit dbFree [⟨1, 5⟩, ⟨2, 7⟩] 5 10).2) :=
  c7_limit_event_broadcast dbFree [⟨1, 5⟩, ⟨2, 7⟩] 5 10


/-- C6 (confirmed): the first report by a reporter inserts one report row,
appends the post to the reporter's reported-set and raises one moderation
ticket; a second identical report returns the `already_reported` result from
`report_post`, leaves the store untouched (no second row, no second
reported-set entry) and raises no second moderation ticket. -/
theorem c6_report_dedup (db : DB) (clients : List Session) (m : InMsg)
    (p : Post) (u : User)
    (hact : m.type = "report_post")
    (ht : pyTruthy m.telegram_id = true)
    (hb : is_user_banned db (m.telegram_id.getD 0) = false)
    (hp : findPost db m.post_id = some p)
    (hu : findUser db (m.telegram_id.getD 0) = some u)
    (hnr : u.reported_posts.contains m.post_id = false) :
    (handle_websocket_message cfgStd clients db m).replies = [OutMsg.reportSent] ∧
    (handle_websocket_message cfgStd clients db m).notifs
      = [Notif.reportRequest 1 m.post_id (m.telegram_id.getD 0)] ∧
    (handle_websocket_message cfgStd clients db m).db.reports
      = db.reports ++ [{ post_id := m.post_id, reporter_id := m.telegram_id.getD 0, reason := m.reason }] ∧
    (findUser (handle_websocket_message cfgStd clients db m).db
        (m.telegram_id.getD 0)).map User.reported_posts
      = some (u.reported_posts ++ [m.post_id]) ∧
    (report_post (handle_websocket_message cfgStd clients db m).db m.post_id
        (m.telegram_id.getD 0) m.reason).2
      = { success := false, message := "already_reported" } ∧
    handle_websocket_message cfgStd clients
        (handle_websocket_message cfgStd clients db m).db m
      = ⟨(handle_websocket_message cfgStd clients db m).db, [], [], []⟩ := by
  have hp' : db.posts.find? (fun q => q.id == m.post_id) = some p := hp
  have hu' : db.users.find? (fun v => v.telegram_id == m.telegram_id.getD 0) = some u := hu
  have hpideq : p.id = m.post_id := by
    simpa using List.find?_some (p := fun q : Post => q.id == m.post_id) hp'
  have hutel : (u.telegram_id == m.telegram_id.getD 0) = true :=
    List.find?_some (p := fun v : User => v.telegram_id == m.telegram_id.getD 0) hu'
  have h1 : handle_websocket_message cfgStd clients db m
      = { db := { db with reports := db.reports ++ [{ post_id := m.post_id, reporter_id := m.telegram_id.getD 0, reason := m.reason }], users := updateWhere (fun v => v.telegram_id == m.telegram_id.getD 0) (fun v => { v with reported_posts := v.reported_posts ++ [m.post_id] }) db.users }
          replies := [OutMsg.reportSent]
          broadcasts := []
          notifs := [Notif.reportRequest 1 m.post_id (m.telegram_id.getD 0)] } := by
    have hnrp : m.post_id ∉ u.reported_posts := by simpa using hnr
    simp [handle_websocket_message, ht, hb, dispatch_action, hact, get_post_by_id,
      findPost, hp', report_post, findUser, hu', hnr, hnrp, send_report_for_moderation,
      cfgStd, hpideq]
  have hu2 : (updateWhere (fun v => v.telegram_id == m.telegram_id.getD 0)
        (fun v => { v with reported_posts := v.reported_posts ++ [m.post_id] })
        db.users).find? (fun v => v.telegram_id == m.telegram_id.getD 0)
      = some { u with reported_posts := u.reported_posts ++ [m.post_id] } := by
    rw [find?_updateWhere _ _ _ _
      (fun a => by
        by_cases h : ((a.telegram_id == m.telegram_id.getD 0) = true) <;> simp [h]), hu']
    simp only [Option.map_some']
    rw [if_pos hutel]
  have hub : u.is_banned = false := by
    have hub0 := hb
    simp only [is_user_banned, hu] at hub0
    exact hub0
  have hne2 : ((u.reported_posts ++ [m.post_id]) != []) = true := by
    rw [bne_iff_ne]
    simp
  have hcon2 : ((u.reported_posts ++ [m.post_id]).contains m.post_id) = true := by
    simp
  have hnep : ¬(u.reported_posts ++ [m.post_id] = []) := by simp
  have hconp : m.post_id ∈ u.reported_posts ++ [m.post_id] := by simp
  rw [h1]
  refine ⟨rfl, rfl, rfl, ?_, ?_, ?_⟩
  · simp only [findUser]
    rw [hu2]
    rfl
  · simp [report_post, findUser, hu2, hne2, hcon2, hnep, hconp]
  · have hb2 : is_user_banned { db with reports := db.reports ++ [{ post_id := m.post_id, reporter_id := m.telegram_id.getD 0, reason := m.reason }], users := updateWhere (fun v => v.telegram_id == m.telegram_id.getD 0) (fun v => { v with reported_posts := v.reported_posts ++ [m.post_id] }) db.users } (m.telegram_id.getD 0) = false := by
      simp [is_user_banned, findUser, hu2, hub]
    simp [handle_websocket_message, ht, hb2, dispatch_action, hact, get_post_by_id,
      findPost, hp', report_post, findUser, hu2, hne2, hcon2, hnep, hconp]

/-- Witness for C6: user 9 reports post 1 twice in `dbReport`. -/
theorem c6_witness :
    msgReport.type = "report_post" ∧
    pyTruthy msgReport.telegram_id = true ∧
    is_user_banned dbReport (msgReport.telegram_id.getD 0) = false ∧
    findPost dbReport msgReport.post_id = some (mkPost 1 1 "approved") ∧
    findUser dbReport (msgReport.telegram_id.getD 0) = some (mkUser 9 60) ∧
    (mkUser 9 60).reported_posts.contains msgReport.post_id = false ∧
    ((handle_websocket_message cfgStd [] dbReport msgReport).replies
        = [OutMsg.reportSent] ∧
     (handle_websocket_message cfgStd [] dbReport msgReport).notifs
        = [Notif.reportRequest 1 msgReport.post_id (msgReport.telegram_id.getD 0)] ∧
     (handle_websocket_message cfgStd [] dbReport msgReport).db.reports
        = dbReport.reports ++ [{ post_id := msgReport.post_id, reporter_id := msgReport.telegram_id.getD 0, reason := msgReport.reason }] ∧
     (findUser (handle_websocket_message cfgStd [] dbReport msgReport).db
         (msgReport.telegram_id.getD 0)).map User.reported_posts
        = some ((mkUser 9 60).reported_posts ++ [msgReport.post_id]) ∧
     (report_post (handle_websocket_message cfgStd [] dbReport msgReport).db
         msgReport.post_id (msgReport.telegram_id.getD 0) msgReport.reason).2
        = { success := false, message := "already_reported" } ∧
     handle_websocket_message cfgStd []
         (handle_websocket_message cfgStd [] dbReport msgReport).db msgReport
        = ⟨(handle_websocket_message cfgStd [] dbReport msgReport).db, [], [], []⟩) :=
  ⟨rfl, rfl, rfl, rfl, rfl, rfl,
    c6_report_dedup dbReport [] msgReport (mkPost 1 1 "approved") (mkUser 9 60)
      rfl rfl rfl rfl rfl rfl⟩


theorem dispatch_action_no_ban (cfg : Cfg) (clients : List Session) (db : DB)
    (m : InMsg) (tid : Int) :
    OutMsg.actionBanned ∉ (dispatch_action cfg clients db m tid).replies := by
  unfold dispatch_action
  by_cases h1 : m.type = "sync_user"
  · simp [h1]
  rw [if_neg h1]
  by_cases h2 : m.type = "create_post"
  · rw [if_pos h2]
    split <;> simp
  rw [if_neg h2]
  by_cases h3 : m.type = "get_posts"
  · simp [h3]
  rw [if_neg h3]
  by_cases h4 : m.type = "like_post"
  · rw [if_pos h4]
    rcases hx : (like_post db m.post_id tid).2 with _ | pa <;> simp [hx]
  rw [if_neg h4]
  by_cases h5 : m.type = "delete_post"
  · rw [if_pos h5]
    by_cases hx : ((delete_post db m.post_id (some tid)).2 = true)
    · simp [hx]
    · simp [hx]
  rw [if_neg h5]
  by_cases h6 : m.type = "get_post_for_edit"
  · rw [if_pos h6]
    rcases hx : get_post_by_id db m.post_id with _ | p
    · simp [hx]
    · simp only [hx]
      split <;> simp
  rw [if_neg h6]
  by_cases h7 : m.type = "report_post"
  · rw [if_pos h7]
    rcases hx : get_post_by_id db m.post_id with _ | p
    · simp [hx]
    · simp only [hx]
      repeat' split
      all_goals simp
  rw [if_neg h7]
  by_cases h8 : m.type = "get_user_limits"
  · simp [h8]
  rw [if_neg h8]
  by_cases h9 : m.type = "add_to_favorites"
  · rw [if_pos h9]
    rcases hx : (add_to_favorites db m.post_id tid).2.action with _ | a
    · simp [hx]
    · simp only [hx]
      split <;> simp
  rw [if_neg h9]
  by_cases h10 : m.type = "hide_post"
  · rw [if_pos h10]
    rcases hx : (hide_post db m.post_id tid).2.action with _ | a
    · simp [hx]
    · simp only [hx]
      split <;> simp
  rw [if_neg h10]
  simp

theorem dispatch_action_replies_ne_nil (cfg : Cfg) (clients : List Session)
    (db : DB) (m : InMsg) (tid : Int) (hmem : m.type ∈ replyActions) :
    (dispatch_action cfg clients db m tid).replies ≠ [] := by
  have hmem' : m.type = "sync_user" ∨ m.type = "create_post" ∨ m.type = "get_posts"
      ∨ m.type = "get_post_for_edit" ∨ m.type = "get_user_limits"
      ∨ m.type = "add_to_favorites" ∨ m.type = "hide_post" := by
    simpa [replyActions] using hmem
  unfold dispatch_action
  rcases hmem' with h | h | h | h | h | h | h
  · simp [h]
  · rw [if_neg (by simp [h]), if_pos h]
    split <;> simp
  · simp [h]
  · rw [if_neg (by simp [h]), if_neg (by simp [h]), if_neg (by simp [h]),
      if_neg (by simp [h]), if_neg (by simp [h]), if_pos h]
    rcases hx : get_post_by_id db m.post_id with _ | p
    · simp [hx]
    · simp only [hx]
      split <;> simp
  · simp [h]
  · rw [if_neg (by simp [h]), if_neg (by simp [h]), if_neg (by simp [h]),
      if_neg (by simp [h]), if_neg (by simp [h]), if_neg (by simp [h]),
      if_neg (by simp [h]), if_neg (by simp [h]), if_pos h]
    rcases hx : (add_to_favorites db m.post_id tid).2.action with _ | a
    · simp [hx]
    · simp only [hx]
      split <;> simp
  · rw [if_neg (by simp [h]), if_neg (by simp [h]), if_neg (by simp [h]),
      if_neg (by simp [h]), if_neg (by simp [h]), if_neg (by simp [h]),
      if_neg (by simp [h]), if_neg (by simp [h]), if_neg (by simp [h]),
      if_pos h]
    rcases hx : (hide_post db m.post_id tid).2.action with _ | a
    · simp [hx]
    · simp only [hx]
      split <;> simp

/-- C8 counterexample: `delete_post` for a nonexistent post is a recognized,
well-formed request (telegram_id present) whose handler path terminates with
NO reply at all: the claim that every path sends a typed outcome is false. -/
theorem c8_counterexample :
    pyTruthy msgDelete.telegram_id = true ∧
    (handle_websocket_message cfgStd [] dbFree msgDelete).replies = [] :=
  ⟨rfl, rfl⟩

/-- C8 amended: every request with a truthy `telegram_id` whose action is
one of `sync_user`, `create_post`, `get_posts`, `get_post_for_edit`,
`get_user_limits`, `add_to_favorites`, `hide_post` receives at least one
reply on every path (including the banned gate).  The remaining recognized
actions have silent paths — `delete_post` on a failed delete, `like_post` on
a missing user/post, `report_post` on a missing post or a duplicate report —
as the counterexample shows. -/
theorem c8_reply_coverage (db : DB) (clients : List Session) (m : InMsg)
    (ht : pyTruthy m.telegram_id = true)
    (hmem : m.type ∈ replyActions) :
    (handle_websocket_message cfgStd clients db m).replies ≠ [] := by
  simp only [handle_websocket_message, ht, if_true]
  cases hgate : (is_user_banned db (m.telegram_id.getD 0)
      && bannedActions.contains m.type) with
  | true => simp [hgate]
  | false =>
    simp only [hgate, Bool.false_eq_true, if_false]
    exact dispatch_action_replies_ne_nil cfgStd clients db m
      (m.telegram_id.getD 0) hmem

/-- Witness for C8: a `get_user_limits` request always gets a reply. -/
theorem c8_witness :
    pyTruthy msgLimits.telegram_id = true ∧
    msgLimits.type ∈ replyActions ∧
    (handle_websocket_message cfgStd [] dbFree msgLimits).replies ≠ [] :=
  ⟨rfl, by simp [replyActions, msgLimits],
    c8_reply_coverage dbFree [] msgLimits rfl (by simp [replyActions, msgLimits])⟩

/-- C10 (confirmed): for a request with a truthy `telegram_id`, a banned
user is short-circuited with `action_banned` exactly on the three gated
actions (`create_post`, `like_post`, `report_post`); every other recognized
action runs the ordinary `dispatch_action` regardless of the ban flag, and
no dispatch branch ever produces the `action_banned` refusal. -/
theorem c10_ban_gate (cfg : Cfg) (clients : List Session) (db : DB) (m : InMsg)
    (ht : pyTruthy m.telegram_id = true) :
    (is_user_banned db (m.telegram_id.getD 0) = true → m.type ∈ bannedActions →
      handle_websocket_message cfg clients db m
        = ⟨db, [OutMsg.actionBanned], [], []⟩) ∧
    (m.type ∈ otherActions →
      handle_websocket_message cfg clients db m
        = dispatch_action cfg clients db m (m.telegram_id.getD 0)) ∧
    (∀ (cfg2 : Cfg) (clients2 : List Session) (db2 : DB) (m2 : InMsg) (tid2 : Int),
      OutMsg.actionBanned ∉ (dispatch_action cfg2 clients2 db2 m2 tid2).replies) := by
  refine ⟨?_, ?_, ?_⟩
  · intro hbn hmemb
    have hcont : bannedActions.contains m.type = true := by
      have hmemb' : m.type = "create_post" ∨ m.type = "like_post"
          ∨ m.type = "report_post" := by
        simpa [bannedActions] using hmemb
      rcases hmemb' with h | h | h <;> rw [h] <;> rfl
    simp [handle_websocket_message, ht, hbn, hcont, hmemb]
  · intro hmemo
    have hmemo' : m.type = "delete_post" ∨ m.type = "add_to_favorites"
        ∨ m.type = "hide_post" ∨ m.type = "get_posts"
        ∨ m.type = "get_post_for_edit" ∨ m.type = "get_user_limits"
        ∨ m.type = "sync_user" := by
      simpa [otherActions] using hmemo
    have hnmem : m.type ∉ bannedActions := by
      rcases hmemo' with h | h | h | h | h | h | h <;> simp [bannedActions, h]
    have hcont : bannedActions.contains m.type = false := by
      rcases hmemo' with h | h | h | h | h | h | h <;> rw [h] <;> rfl
    simp [handle_websocket_message, ht, hcont, hnmem]
  · intro cfg2 clients2 db2 m2 tid2
    exact dispatch_action_no_ban cfg2 clients2 db2 m2 tid2

/-- Witness for C10 on the banned user of `dbBanned`. -/
theorem c10_witness :
    pyTruthy msgCreate.telegram_id = true ∧
    ((is_user_banned dbBanned (msgCreate.telegram_id.getD 0) = true →
        msgCreate.type ∈ bannedActions →
        handle_websocket_message cfgStd [] dbBanned msgCreate
          = ⟨dbBanned, [OutMsg.actionBanned], [], []⟩) ∧
     (msgCreate.type ∈ otherActions →
        handle_websocket_message cfgStd [] dbBanned msgCreate
          = dispatch_action cfgStd [] dbBanned msgCreate
              (msgCreate.telegram_id.getD 0)) ∧
     (∀ (cfg2 : Cfg) (clients2 : List Session) (db2 : DB) (m2 : InMsg) (tid2 : Int),
        OutMsg.actionBanned ∉ (dispatch_action cfg2 clients2 db2 m2 tid2).replies)) :=
  ⟨rfl, c10_ban_gate cfgStd [] dbBanned msgCreate rfl⟩

end Six
